import Mathlib

/-!
Verification of the MyT interaction library (`tojota.py`): a shallow
embedding of its session lifecycle and snapshot-diffing cache layer.

Modelling conventions:
- JSON values are the inductive `Json`; Python dicts are association lists
  in insertion order (as produced by `json.load`).
- ISO-8601 timestamps are modelled by their integer epoch value: `str(t)`
  and `pendulum.parse` are identity on the model, preserving ordering.
- Network responses are explicit inputs (`HttpResp`); issued requests are
  returned as a trace (`Req` list).
- Snapshot categories are lists of file contents, newest first (filenames
  embed monotonically increasing capture times, so `_find_latest_file`
  composed with `_read_file` is `List.head?`).
- Python exceptions are the `PyErr` inductive; a `ValueError` message built
  with `str.format` is modelled by the list of its formatted components.
-/

namespace Tojota

/-- JSON values as loaded by `json.load`. Numbers are modelled as integers
(the payload fields the claims touch are integral); booleans are kept
distinct from numbers. -/
inductive Json where
  | null : Json
  | bool (b : Bool) : Json
  | num (n : Int) : Json
  | str (s : String) : Json
  | arr (xs : List Json) : Json
  | obj (fs : List (String × Json)) : Json

/-- Python dict lookup `d[k]` restricted to association lists: first
binding wins (lists coming from `json.load` have unique keys). -/
def dictGet (fs : List (String × Json)) (k : String) : Option Json :=
  match fs with
  | [] => none
  | (k', v) :: rest => if k' = k then some v else dictGet rest k

/-- Python dict assignment `d[k] = v`: replaces in place if the key
exists, appends otherwise (insertion-order semantics). -/
def dictSet (fs : List (String × Json)) (k : String) (v : Json) :
    List (String × Json) :=
  match fs with
  | [] => [(k, v)]
  | (k', w) :: rest =>
      if k' = k then (k, v) :: rest else (k', w) :: dictSet rest k v

mutual

/-- Python `==` on JSON values: structural on scalars and lists, and
key-set based (order-insensitive) on dicts. -/
def pyEq : Json → Json → Bool
  | .null, .null => true
  | .bool a, .bool b => a == b
  | .num a, .num b => a == b
  | .str a, .str b => a == b
  | .arr a, .arr b => pyEqList a b
  | .obj a, .obj b => (a.length == b.length) && pyEqObjAll a b
  | _, _ => false

/-- Elementwise Python `==` on lists. -/
def pyEqList : List Json → List Json → Bool
  | [], [] => true
  | x :: xs, y :: ys => pyEq x y && pyEqList xs ys
  | _, _ => false

/-- Every binding of the first dict has an equal binding in the second. -/
def pyEqObjAll : List (String × Json) → List (String × Json) → Bool
  | [], _ => true
  | (k, v) :: rest, b =>
      (match dictGet b k with
       | some w => pyEq v w
       | none => false) && pyEqObjAll rest b

end

/-- Key ordering used by `json.dumps(·, sort_keys=True)`. -/
def keyLe (p q : String × Json) : Prop := p.1 ≤ q.1

instance : DecidableRel keyLe := fun p q =>
  inferInstanceAs (Decidable (p.1 ≤ q.1))

instance : IsTotal (String × Json) keyLe :=
  ⟨fun a b => le_total a.1 b.1⟩

instance : IsTrans (String × Json) keyLe :=
  ⟨fun _ _ _ h h' => le_trans h h'⟩

mutual

/-- Recursively sort every object's bindings by key: the canonical form
produced by `json.dumps(·, sort_keys=True)`. -/
def canon : Json → Json
  | .null => .null
  | .bool b => .bool b
  | .num n => .num n
  | .str s => .str s
  | .arr xs => .arr (canonList xs)
  | .obj fs => .obj (List.insertionSort keyLe (canonFields fs))

def canonList : List Json → List Json
  | [] => []
  | x :: xs => canon x :: canonList xs

def canonFields : List (String × Json) → List (String × Json)
  | [] => []
  | (k, v) :: fs => (k, canon v) :: canonFields fs

end

/-- Adjacent keys are in nondecreasing order. -/
def keysChainLe : List (String × Json) → Bool
  | [] => true
  | [_] => true
  | p :: q :: rest => (decide (p.1 ≤ q.1)) && keysChainLe (q :: rest)

mutual

/-- Every object nested in the value has its bindings sorted by key. -/
def keysSorted : Json → Bool
  | .null => true
  | .bool _ => true
  | .num _ => true
  | .str _ => true
  | .arr xs => keysSortedList xs
  | .obj fs => keysChainLe fs && keysSortedFields fs

def keysSortedList : List Json → Bool
  | [] => true
  | x :: xs => keysSorted x && keysSortedList xs

def keysSortedFields : List (String × Json) → Bool
  | [] => true
  | (_, v) :: fs => keysSorted v && keysSortedFields fs

end

/-- Pairwise-distinct key list. -/
def distinctKeys : List String → Bool
  | [] => true
  | k :: ks => (!(decide (k ∈ ks))) && distinctKeys ks

mutual

/-- Every object nested in the value has pairwise-distinct keys (true of
anything produced by `json.load`). -/
def nodupKeys : Json → Bool
  | .null => true
  | .bool _ => true
  | .num _ => true
  | .str _ => true
  | .arr xs => nodupKeysList xs
  | .obj fs => distinctKeys (fs.map Prod.fst) && nodupKeysFields fs

def nodupKeysList : List Json → Bool
  | [] => true
  | x :: xs => nodupKeys x && nodupKeysList xs

def nodupKeysFields : List (String × Json) → Bool
  | [] => true
  | (_, v) :: fs => nodupKeys v && nodupKeysFields fs

end

/-- Escape quote and backslash characters. -/
def escapeChars : List Char → List Char
  | [] => []
  | c :: cs =>
      if c = '"' || c = '\\' then '\\' :: c :: escapeChars cs
      else c :: escapeChars cs

/-- Serialize a string as a JSON string literal. -/
def quoteStr (s : String) : String :=
  "\"" ++ String.mk (escapeChars s.toList) ++ "\""

mutual

/-- Serialization matching `json.dumps` defaults (separators
comma-space and colon-space). -/
def serialize : Json → String
  | .null => "null"
  | .bool true => "true"
  | .bool false => "false"
  | .num n => toString n
  | .str s => quoteStr s
  | .arr xs => "[" ++ serializeItems xs ++ "]"
  | .obj fs => "\x7b" ++ serializeFields fs ++ "\x7d"

def serializeItems : List Json → String
  | [] => ""
  | [x] => serialize x
  | x :: xs => serialize x ++ ", " ++ serializeItems xs

def serializeFields : List (String × Json) → String
  | [] => ""
  | [(k, v)] => quoteStr k ++ ": " ++ serialize v
  | (k, v) :: fs => quoteStr k ++ ": " ++ serialize v ++ ", " ++ serializeFields fs

end

/-- `json.dumps(v)`. -/
def json_dumps (v : Json) : String := serialize v

/-- `json.dumps(v, sort_keys=True)`: serialization of the recursively
key-sorted canonical form. -/
def json_dumps_sorted (v : Json) : String := serialize (canon v)

/-- Drop leading JSON whitespace. -/
def skipWs : List Char → List Char
  | [] => []
  | c :: cs =>
      if c = ' ' || c = '\t' || c = '\n' || c = '\r' then skipWs cs
      else c :: cs

/-- Consume the characters of a JSON string literal after the opening
quote, handling the single-character escapes. -/
def strChars : List Char → Option (List Char × List Char)
  | [] => none
  | '"' :: rest => some ([], rest)
  | '\\' :: [] => none
  | '\\' :: c :: rest => do
      let e ← (match c with
        | '"' => some '"'
        | '\\' => some '\\'
        | '/' => some '/'
        | 'n' => some '\n'
        | 't' => some '\t'
        | 'r' => some '\r'
        | _ => none)
      let (cs, r) ← strChars rest
      pure (e :: cs, r)
  | c :: rest => do
      let (cs, r) ← strChars rest
      pure (c :: cs, r)

/-- Split a leading run of decimal digits. -/
def takeDigits : List Char → List Char × List Char
  | [] => ([], [])
  | c :: cs =>
      if c.isDigit then
        let (ds, r) := takeDigits cs
        (c :: ds, r)
      else ([], c :: cs)

/-- Numeric value of a digit list. -/
def digitsToNat : List Char → Nat → Nat
  | [], acc => acc
  | c :: cs, acc => digitsToNat cs (acc * 10 + (c.toNat - '0'.toNat))

/-- Parse a JSON integer token (optional minus sign, no leading zeros). -/
def parseIntTok (cs : List Char) : Option (Int × List Char) :=
  let (neg, rest) :=
    match cs with
    | '-' :: r => (true, r)
    | r => (false, r)
  let (ds, r) := takeDigits rest
  match ds with
  | [] => none
  | d :: more =>
      if d = '0' && more ≠ [] then none
      else
        let n : Int := Int.ofNat (digitsToNat ds 0)
        some (if neg then -n else n, r)

/-- Expect an exact character sequence. -/
def stripTok : List Char → List Char → Option (List Char)
  | [], cs => some cs
  | t :: ts, c :: cs => if t = c then stripTok ts cs else none
  | _ :: _, [] => none

mutual

/-- Fuel-indexed recursive-descent JSON parser (the model of
`json.loads` / `json.load`; `\uXXXX` escapes and floats are outside the
modelled fragment). -/
def parseVal : Nat → List Char → Option (Json × List Char)
  | 0, _ => none
  | fuel + 1, cs =>
    match skipWs cs with
    | [] => none
    | c :: rest =>
      if c = '"' then
        (strChars rest).map (fun p => (.str (String.mk p.1), p.2))
      else if c = '[' then
        match skipWs rest with
        | ']' :: r => some (.arr [], r)
        | cs' => (parseItems fuel cs').map (fun p => (.arr p.1, p.2))
      else if c = '\x7b' then
        match skipWs rest with
        | '\x7d' :: r => some (.obj [], r)
        | cs' => (parseFields fuel cs').map (fun p => (.obj p.1, p.2))
      else if c = 't' then
        (stripTok ['r', 'u', 'e'] rest).map (fun r => (.bool true, r))
      else if c = 'f' then
        (stripTok ['a', 'l', 's', 'e'] rest).map (fun r => (.bool false, r))
      else if c = 'n' then
        (stripTok ['u', 'l', 'l'] rest).map (fun r => (.null, r))
      else
        (parseIntTok (c :: rest)).map (fun p => (.num p.1, p.2))

/-- Parse comma-separated array items up to the closing bracket. -/
def parseItems : Nat → List Char → Option (List Json × List Char)
  | 0, _ => none
  | fuel + 1, cs => do
      let (x, r) ← parseVal fuel cs
      match skipWs r with
      | ',' :: r' => do
          let (xs, r'') ← parseItems fuel r'
          pure (x :: xs, r'')
      | ']' :: r' => pure ([x], r')
      | _ => none

/-- Parse comma-separated object bindings up to the closing brace. -/
def parseFields : Nat → List Char → Option (List (String × Json) × List Char)
  | 0, _ => none
  | fuel + 1, cs =>
    match skipWs cs with
    | '"' :: r => do
        let (k, r₁) ← strChars r
        match skipWs r₁ with
        | ':' :: r₂ => do
            let (v, r₃) ← parseVal fuel r₂
            match skipWs r₃ with
            | ',' :: r₄ => do
                let (fs, r₅) ← parseFields fuel r₄
                pure ((String.mk k, v) :: fs, r₅)
            | '\x7d' :: r₄ => pure ([(String.mk k, v)], r₄)
            | _ => none
        | _ => none
    | _ => none

end

/-- `json.loads s`: parse with ample fuel and reject trailing input. -/
def json_loads (s : String) : Option Json :=
  match parseVal (2 * s.length + 8) s.toList with
  | some (j, rest) => if (skipWs rest).isEmpty then some j else none
  | none => none

/-- A component of a `ValueError` message assembled with `str.format`. -/
inductive ErrPart where
  | lit (s : String)
  | statusP (n : Nat)
  | headersP (h : List (String × String))
  | bodyP (s : String)
  | jsonP (j : Json)

/-- Python exceptions raised by the library. -/
inductive PyErr where
  | keyError (k : String)
  | indexError
  | typeError
  | valueError (parts : List ErrPart)
  | jsonDecodeError
  | parseError
  | jwtDecodeError

/-- An HTTP response as seen by the library (`requests` response). -/
structure HttpResp where
  status_code : Nat
  headers : List (String × String)
  text : String

/-- `r.ok`: status below 400. -/
def HttpResp.isOk (r : HttpResp) : Bool := r.status_code < 400

/-- `r.json()`: parse the body, raising `JSONDecodeError` on failure. -/
def HttpResp.jsonE (r : HttpResp) : Except PyErr Json :=
  match json_loads r.text with
  | some j => .ok j
  | none => .error .jsonDecodeError

/-- Network requests the library can issue, in issue order. -/
inductive Req where
  | postLoginStart
  | postLoginUserPrompt (body : String)
  | postLoginUsername (body : String)
  | postLoginPassword (body : String)
  | getAuthorize (tokenId : Json)
  | postTokenAuthCode (code : String)
  | postTokenRefresh (refreshToken : Json)
  | getTripReq (tripId : String)
  | getStatisticsReq

/-- The relevant fields of `configs/myt.json`. -/
structure Config where
  username : String
  password : String
  vin : String

/-- Python subscript `v[k]` with a string key. -/
def pyGetKey : Json → String → Except PyErr Json
  | .obj fs, k =>
      match dictGet fs k with
      | some v => .ok v
      | none => .error (.keyError k)
  | _, _ => .error .typeError

/-- Python subscript `v[i]` with an integer index. -/
def pyGetIdx : Json → Nat → Except PyErr Json
  | .arr xs, i =>
      match xs.get? i with
      | some v => .ok v
      | none => .error .indexError
  | .obj _, i => .error (.keyError (toString i))
  | _, _ => .error .typeError

/-- Python subscript assignment `v[k] = x` with a string key. -/
def pySetKey : Json → String → Json → Except PyErr Json
  | .obj fs, k, v => .ok (.obj (dictSet fs k v))
  | _, _, _ => .error .typeError

/-- Python subscript assignment `v[i] = x` with an integer index. -/
def pySetIdx : Json → Nat → Json → Except PyErr Json
  | .arr xs, i, v =>
      if i < xs.length then .ok (.arr (xs.set i v)) else .error .indexError
  | _, _, _ => .error .typeError

/-- Python membership `k in v` (dict keys, list elements, substring);
`TypeError` on the remaining JSON scalars, as on `None`. -/
def pyContains : Json → String → Except PyErr Bool
  | .obj fs, k => .ok (dictGet fs k).isSome
  | .arr xs, k => .ok (xs.any (fun x => pyEq x (.str k)))
  | .str s, k => .ok (decide (k = "") || decide ((s.splitOn k).length ≥ 2))
  | _, _ => .error .typeError

/-- `Myt._get_user_data`: the cached `user_data.json` contents, or `none`
when the file does not exist.  A missing file yields `none`
(`FileNotFoundError` is caught); an unparsable file re-raises the decode
error. -/
def _get_user_data (file : Option String) : Except PyErr (Option Json) :=
  match file with
  | none => .ok none
  | some s =>
      match json_loads s with
      | some d => .ok (some d)
      | none => .error .jsonDecodeError

/-- Python truthiness of a JSON value (`not self.user_data`). -/
def pyFalsy : Json → Bool
  | .null => true
  | .bool b => !b
  | .num n => n == 0
  | .str s => s == ""
  | .arr xs => xs.isEmpty
  | .obj fs => fs.isEmpty

/-- `pendulum.parse` on a stored expiration value (timestamps are
modelled as integer epochs; anything else fails to parse). -/
def pendulumParse : Json → Except PyErr Int
  | .num t => .ok t
  | _ => .error .parseError

/-- The condition of `Myt.__init__` line 55: login is triggered when no
user data was loaded, the loaded value is falsy, or `now` is strictly
after the stored expiration. -/
def initNeedsLogin (ud : Option Json) (now : Int) : Except PyErr Bool :=
  match ud with
  | none => .ok true
  | some u =>
      if pyFalsy u then .ok true
      else
        match pyGetKey u "expiration" with
        | .error e => .error e
        | .ok e =>
          match pendulumParse e with
          | .error e' => .error e'
          | .ok t => .ok (decide (now > t))

/-- The external responses consumed by `Myt.login`, one per request the
flow can issue, plus the behaviour of `jwt.decode` on the id token. -/
structure LoginEnv where
  rStart : HttpResp
  rUser : HttpResp
  rPass : HttpResp
  rTok : HttpResp
  rAuth : HttpResp
  rToken : HttpResp
  jwtDecode : Json → Except PyErr Json

/-- The challenge-slot assignment
`data['callbacks'][0]['input'][0]['value'] = x` (lines 154 and 159). -/
def setSlot (data : Json) (x : String) : Except PyErr Json :=
  match pyGetKey data "callbacks" with
  | .error e => .error e
  | .ok cbs =>
    match pyGetIdx cbs 0 with
    | .error e => .error e
    | .ok cb0 =>
      match pyGetKey cb0 "input" with
      | .error e => .error e
      | .ok inp =>
        match pyGetIdx inp 0 with
        | .error e => .error e
        | .ok i0 =>
          match pySetKey i0 "value" (.str x) with
          | .error e => .error e
          | .ok i0' =>
            match pySetIdx inp 0 i0' with
            | .error e => .error e
            | .ok inp' =>
              match pySetKey cb0 "input" inp' with
              | .error e => .error e
              | .ok cb0' =>
                match pySetIdx cbs 0 cb0' with
                | .error e => .error e
                | .ok cbs' => pySetKey data "callbacks" cbs'

/-- The provider diagnostic
`data['callbacks'][0]['output'][0]['value']` (line 161). -/
def outputMsg (data : Json) : Except PyErr Json :=
  match pyGetKey data "callbacks" with
  | .error e => .error e
  | .ok cbs =>
    match pyGetIdx cbs 0 with
    | .error e => .error e
    | .ok cb0 =>
      match pyGetKey cb0 "output" with
      | .error e => .error e
      | .ok out =>
        match pyGetIdx out 0 with
        | .error e => .error e
        | .ok o0 => pyGetKey o0 "value"

/-- Lines 158-161: populate the password slot; only `KeyError` is caught
and converted into the check-your-username `ValueError` carrying the
provider's message (whose own lookup may itself raise). -/
def passwordStep (data : Json) (pw : String) : Except PyErr Json :=
  match setSlot data pw with
  | .ok d => .ok d
  | .error (.keyError _) =>
      match outputMsg data with
      | .ok m =>
          .error (.valueError
            [.lit "Login failed, check your username!", .jsonP m])
      | .error e => .error e
  | .error e => .error e

/-- `urlparse(u).query`: the part after the first question mark, up to a
fragment marker. -/
def urlQuery (u : String) : String :=
  match u.splitOn "?" with
  | [] => ""
  | [_] => ""
  | _ :: rest => ((String.intercalate "?" rest).splitOn "#").headD ""

/-- `parse_qs(q)[k][0]`: first value bound to `k`; pairs without a value
are dropped. -/
def parseQsGet (q : String) (k : String) : Option String :=
  ((q.splitOn "&").filterMap (fun p =>
    match p.splitOn "=" with
    | key :: v :: more =>
        let val := String.intercalate "=" (v :: more)
        if key = k && val ≠ "" then some val else none
    | _ => none)).head?

/-- Header lookup (`r.headers['Location']`). -/
def headersGet (h : List (String × String)) (k : String) : Option String :=
  (h.find? (fun p => p.1 = k)).map Prod.snd

/-- Lines 148-184: the interactive SSO flow, returning the requests it
issued and the token-endpoint response JSON on success. -/
def interactiveLogin (cfg : Config) (env : LoginEnv) :
    List Req × Except PyErr Json :=
  let t2 : List Req := [.postLoginStart, .postLoginUserPrompt env.rStart.text]
  match env.rUser.jsonE with
  | .error e => (t2, .error e)
  | .ok data =>
    match setSlot data cfg.username with
    | .error e => (t2, .error e)
    | .ok data2 =>
      let t3 := t2 ++ [.postLoginUsername (json_dumps data2)]
      match env.rPass.jsonE with
      | .error e => (t3, .error e)
      | .ok data3 =>
        match passwordStep data3 cfg.password with
        | .error e => (t3, .error e)
        | .ok data4 =>
          let t4 := t3 ++ [.postLoginPassword (json_dumps data4)]
          if env.rTok.status_code ≠ 200 then
            (t4, .error (.valueError
              [.lit "Login failed, check your password!", .bodyP env.rTok.text]))
          else
            match env.rTok.jsonE with
            | .error e => (t4, .error e)
            | .ok data5 =>
              match pyGetKey data5 "tokenId" with
              | .error e => (t4, .error e)
              | .ok tok =>
                let t5 := t4 ++ [.getAuthorize tok]
                match headersGet env.rAuth.headers "Location" with
                | none => (t5, .error (.keyError "Location"))
                | some loc =>
                  match parseQsGet (urlQuery loc) "code" with
                  | none => (t5, .error (.keyError "code"))
                  | some code =>
                    let t6 := t5 ++ [.postTokenAuthCode code]
                    if !env.rToken.isOk then
                      (t6, .error (.valueError
                        [.lit "Getting authorization tokens failed!",
                         .bodyP env.rToken.text]))
                    else (t6, env.rToken.jsonE)

/-- Lines 186-197: the refresh-token exchange. -/
def refreshLogin (u : Json) (env : LoginEnv) : List Req × Except PyErr Json :=
  match pyGetKey u "refresh_token" with
  | .error e => ([], .error e)
  | .ok rt =>
    let t : List Req := [.postTokenRefresh rt]
    if !env.rToken.isOk then
      (t, .error (.valueError
        [.lit "Getting authorization tokens using refresh token failed!",
         .bodyP env.rToken.text]))
    else (t, env.rToken.jsonE)

/-- Lines 199-206: build the new user-data record from the token response
alone — derive the uuid from the (unverified) id-token claims and the
expiration from `now + expires_in`. -/
def finishLogin (env : LoginEnv) (now : Int) (j : Json) : Except PyErr Json :=
  match pyGetKey j "id_token" with
  | .error e => .error e
  | .ok idt =>
    match env.jwtDecode idt with
    | .error e => .error e
    | .ok claims =>
      match pyGetKey claims "uuid" with
      | .error e => .error e
      | .ok uuid =>
        match pySetKey j "uuid" uuid with
        | .error e => .error e
        | .ok j1 =>
          match pyGetKey j1 "expires_in" with
          | .error e => .error e
          | .ok ei =>
            match ei with
            | .num n => pySetKey j1 "expiration" (.num (now + n))
            | _ => .error .typeError

/-- `Myt.login`: dispatch on the presence of a refresh token in the
loaded user data (`"refresh_token" not in self.user_data`, line 147);
the returned record is both stored in `self.user_data` and persisted. -/
def login (ud : Option Json) (cfg : Config) (env : LoginEnv) (now : Int) :
    List Req × Except PyErr Json :=
  match ud with
  | none => ([], .error .typeError)
  | some u =>
    match pyContains u "refresh_token" with
    | .error e => ([], .error e)
    | .ok b =>
      let p := if b then refreshLogin u env else interactiveLogin cfg env
      (p.1, p.2.bind (finishLogin env now))

/-- The load-or-login part of `Myt.__init__` (lines 52-56).  The
subsequent header construction issues no network calls and is outside
the modelled state. -/
def myt_init (ud0 : Option Json) (cfg : Config) (env : LoginEnv) (now : Int) :
    List Req × Except PyErr Json :=
  match initNeedsLogin ud0 now with
  | .error e => ([], .error e)
  | .ok true => login ud0 cfg env now
  | .ok false =>
      match ud0 with
      | some u => ([], .ok u)
      | none => ([], .error .typeError)

/-- `latest(category)` composed with `_read_file`: snapshot lists are
newest-first, so the latest file's contents are the head. -/
def latestSnap (snaps : List String) : Option String := snaps.head?

/-- Python `r.text != previous` where `previous` may be `None`. -/
def pyTextNe (s : String) : Option String → Bool
  | none => true
  | some t => decide (s ≠ t)

/-- `Myt.get_trips` (lines 211-245): byte-exact snapshot store under the
trips category. -/
def get_trips (snaps : List String) (r : HttpResp) :
    List String × Except PyErr (Json × Bool) :=
  if r.status_code ≠ 200 then
    (snaps, .error (.valueError
      [.lit "Failed to get data, Status: Headers: Body:",
       .statusP r.status_code, .headersP r.headers, .bodyP r.text]))
  else
    let previous := latestSnap snaps
    let st := if pyTextNe r.text previous then (true, r.text :: snaps)
              else (false, snaps)
    (st.2, (r.jsonE).map (fun j => (j, st.1)))

/-- `self.user_data['customerProfile']['uuid']` (lines 261 and 366),
evaluated while building the request URL or headers, before any request
is issued. -/
def customerUuid (ud : Json) : Except PyErr Json :=
  match pyGetKey ud "customerProfile" with
  | .error e => .error e
  | .ok cp => pyGetKey cp "uuid"

/-- Association lookup in the content-addressed trip cache (the nested
two-level bucket path is a bijective function of the trip id, so the
cache is keyed by the id itself). -/
def lookupStr (l : List (String × String)) (k : String) : Option String :=
  match l with
  | [] => none
  | (k', v) :: rest => if k' = k then some v else lookupStr rest k

/-- `Myt.get_trip` (lines 247-271): content-addressed trip snapshots.
If the trip file exists it is parsed and returned with `fresh = false`
and no request is issued; otherwise the response body is stored
unconditionally and returned with `fresh = true`.  The URL interpolation
evaluates `user_data['customerProfile']['uuid']` before the request. -/
def get_trip (ud : Json) (tripCache : List (String × String))
    (tripId : String) (r : HttpResp) :
    List Req × List (String × String) × Except PyErr (Json × Bool) :=
  match lookupStr tripCache tripId with
  | some body =>
      ([], tripCache,
       match json_loads body with
       | some j => .ok (j, false)
       | none => .error .jsonDecodeError)
  | none =>
      match customerUuid ud with
      | .error e => ([], tripCache, .error e)
      | .ok _ =>
        let t : List Req := [.getTripReq tripId]
        if r.status_code ≠ 200 then
          (t, tripCache, .error (.valueError
            [.lit "Failed to get data",
             .statusP r.status_code, .headersP r.headers]))
        else
          (t, (tripId, r.text) :: tripCache,
           (r.jsonE).map (fun j => (j, true)))

/-- `Myt.get_parking` (lines 273-292): byte-exact snapshot store under
the parking category. -/
def get_parking (snaps : List String) (r : HttpResp) :
    List String × Except PyErr (Json × Bool) :=
  if r.status_code ≠ 200 then
    (snaps, .error (.valueError
      [.lit "Failed to get data",
       .bodyP r.text, .statusP r.status_code, .headersP r.headers]))
  else
    let previous := latestSnap snaps
    let st := if pyTextNe r.text previous then (true, r.text :: snaps)
              else (false, snaps)
    (st.2, (r.jsonE).map (fun j => (j, st.1)))

/-- Lines 313-321: rename provider telemetry fields into the stable
internal shape. -/
def telemetryExtract (j : Json) : Except PyErr Json :=
  match pyGetKey j "payload" with
  | .error e => .error e
  | .ok data =>
    match pyGetKey data "odometer" with
    | .error e => .error e
    | .ok od =>
      match pyGetKey od "value" with
      | .error e => .error e
      | .ok odv =>
        match pyGetKey data "fuelLevel" with
        | .error e => .error e
        | .ok fl =>
          match pyGetKey data "distanceToEmpty" with
          | .error e => .error e
          | .ok dte =>
            match pyGetKey dte "value" with
            | .error e => .error e
            | .ok dtev =>
              match pyGetKey data "batteryLevel" with
              | .error e => .error e
              | .ok bl =>
                match pyGetKey data "timestamp" with
                | .error e => .error e
                | .ok ts =>
                  match pyGetKey data "chargingStatus" with
                  | .error e => .error e
                  | .ok cs =>
                    .ok (.obj [("odometer", odv), ("hv_percentage", fl),
                               ("hv_range", dtev), ("ev_percentage", bl),
                               ("timestamp", ts), ("charging_status", cs)])

/-- `Myt.get_telemetry` (lines 294-322): byte-exact snapshot store under
the odometer category, then field extraction. -/
def get_telemetry (snaps : List String) (r : HttpResp) :
    List String × Except PyErr (Json × Bool) :=
  if r.status_code ≠ 200 then
    (snaps, .error (.valueError
      [.lit "Failed to get data",
       .bodyP r.text, .statusP r.status_code, .headersP r.headers]))
  else
    let previous := latestSnap snaps
    let st := if pyTextNe r.text previous then (true, r.text :: snaps)
              else (false, snaps)
    (st.2,
     match r.jsonE with
     | .error e => .error e
     | .ok j =>
       match telemetryExtract j with
       | .error e => .error e
       | .ok telemetry => .ok (telemetry, st.1))

/-- Lines 341-345 (and 378-382): parse the latest structural-mode
snapshot; a missing file gives `None` (`json.loads(None)` raises
`TypeError`, which is caught), while an unparsable file raises an
uncaught `JSONDecodeError`. -/
def loadPreviousStructural (snaps : List String) : Except PyErr (Option Json) :=
  match latestSnap snaps with
  | none => .ok none
  | some s =>
      match json_loads s with
      | some p => .ok (some p)
      | none => .error .jsonDecodeError

/-- Python `data != previous` on parsed values, `previous` possibly
`None`. -/
def pyNeOpt (data : Json) : Option Json → Bool
  | none => true
  | some p => !(pyEq data p)

/-- `Myt.get_remote_control_status` (lines 324-350): structural-mode
snapshot store — compare parsed values, persist with sorted keys. -/
def get_remote_control_status (snaps : List String) (r : HttpResp) :
    List String × Except PyErr (Json × Bool) :=
  if r.status_code ≠ 200 then
    (snaps, .error (.valueError
      [.lit "Failed to get data",
       .bodyP r.text, .statusP r.status_code, .headersP r.headers]))
  else
    match r.jsonE with
    | .error e => (snaps, .error e)
    | .ok data =>
      match loadPreviousStructural snaps with
      | .error e => (snaps, .error e)
      | .ok previous =>
        if pyNeOpt data previous then
          (json_dumps_sorted data :: snaps, .ok (data, true))
        else (snaps, .ok (data, false))

/-- `Myt.get_driving_statistics` (lines 352-388): reads
`user_data['token']` and `user_data['customerProfile']['uuid']` to build
the legacy headers before issuing the request, then structural-mode
snapshot store under the statistics category. -/
def get_driving_statistics (ud : Json) (snaps : List String) (r : HttpResp) :
    List Req × List String × Except PyErr (Json × Bool) :=
  match pyGetKey ud "token" with
  | .error e => ([], snaps, .error e)
  | .ok _ =>
    match customerUuid ud with
    | .error e => ([], snaps, .error e)
    | .ok _ =>
      let t : List Req := [.getStatisticsReq]
      if r.status_code ≠ 200 then
        (t, snaps, .error (.valueError
          [.lit "Failed to get data",
           .bodyP r.text, .statusP r.status_code, .headersP r.headers]))
      else
        match r.jsonE with
        | .error e => (t, snaps, .error e)
        | .ok data =>
          match loadPreviousStructural snaps with
          | .error e => (t, snaps, .error e)
          | .ok previous =>
            if pyNeOpt data previous then
              (t, json_dumps_sorted data :: snaps, .ok (data, true))
            else (t, snaps, .ok (data, false))

/-- Sequential `get_trip` invocations as in `main`'s trip loop: an
exception aborts the loop; the concatenated request trace is returned. -/
def runGetTrips (ud : Json) (env : String → HttpResp) :
    List (String × String) → List String → List Req
  | _, [] => []
  | cache, id :: ids =>
      let step := get_trip ud cache id (env id)
      match step.2.2 with
      | .ok _ => step.1 ++ runGetTrips ud env step.2.1 ids
      | .error _ => step.1

/-- Is this request the trip fetch for the given id? -/
def isFetchOf (id : String) : Req → Bool
  | .getTripReq i => decide (i = id)
  | _ => false

/-- Number of trip fetches for `id` in a request trace. -/
def countFetches (id : String) (t : List Req) : Nat :=
  (t.filter (isFetchOf id)).length

/-! ## Claims -/

/-- C8: loading the persisted session record distinguishes the two
failure modes: a missing file loads as absent (`none`); an existing but
unparsable file propagates the decode error to the caller instead of
being treated as absent; a parsable file loads its contents. -/
theorem claim_C8 (s : String) (hbad : json_loads s = none) :
    _get_user_data none = Except.ok none ∧
    _get_user_data (some s) = Except.error PyErr.jsonDecodeError ∧
    (∀ t d, json_loads t = some d →
      _get_user_data (some t) = Except.ok (some d)) := by
  refine ⟨rfl, ?_, ?_⟩
  · simp [_get_user_data, hbad]
  · intro t d ht
    simp [_get_user_data, ht]

/-- C8 witness: the malformed contents `"x"` raise, a missing file and a
well-formed record file load. -/
theorem claim_C8_witness :
    _get_user_data none = Except.ok none ∧
    _get_user_data (some "x") = Except.error PyErr.jsonDecodeError ∧
    _get_user_data (some "\x7b\"access_token\": \"A\"\x7d") =
      Except.ok (some (Json.obj [("access_token", Json.str "A")])) :=
  ⟨(claim_C8 "x" rfl).1, (claim_C8 "x" rfl).2.1,
   (claim_C8 "x" rfl).2.2 "\x7b\"access_token\": \"A\"\x7d"
     (Json.obj [("access_token", Json.str "A")]) rfl⟩

/-- C2 (behaviour at the failing input): with no loaded session record
(`self.user_data = None`, the fresh-install state), `Myt.login` raises
`TypeError` on the membership test `"refresh_token" not in
self.user_data` before issuing any request, so neither the interactive
nor the refresh flow executes. -/
theorem claim_C2 (cfg : Config) (env : LoginEnv) (now : Int) :
    login none cfg env now = ([], Except.error PyErr.typeError) := rfl

/-- C10: `get_driving_statistics` reads `user_data['token']` and
`user_data['customerProfile']['uuid']` before issuing any request; for
every record in which either field is absent it fails with a `KeyError`
(a key-lookup error, not the `ValueError` used for HTTP failures),
issues no request and leaves the snapshot store unchanged. -/
theorem claim_C10 (fs : List (String × Json)) (snaps : List String)
    (r : HttpResp)
    (h : dictGet fs "token" = none ∨ dictGet fs "customerProfile" = none ∨
         (∃ gs, dictGet fs "customerProfile" = some (Json.obj gs) ∧
                dictGet gs "uuid" = none)) :
    ∃ k, get_driving_statistics (Json.obj fs) snaps r =
      ([], snaps, Except.error (PyErr.keyError k)) := by
  cases htok : dictGet fs "token" with
  | none =>
      exact ⟨"token", by simp [get_driving_statistics, pyGetKey, htok]⟩
  | some tv =>
      rcases h with h | h | ⟨gs, h1, h2⟩
      · rw [htok] at h
        exact absurd h (by simp)
      · exact ⟨"customerProfile",
          by simp [get_driving_statistics, pyGetKey, htok, customerUuid, h]⟩
      · exact ⟨"uuid",
          by simp [get_driving_statistics, pyGetKey, htok, customerUuid,
                   h1, h2]⟩

/-- C10 witness: a record with a token but no customer profile fails
with a key-lookup error and no request. -/
theorem claim_C10_witness :
    ∃ k, get_driving_statistics (Json.obj [("token", Json.str "T")]) []
      ⟨200, [], "1"⟩ = ([], [], Except.error (PyErr.keyError k)) :=
  claim_C10 [("token", Json.str "T")] [] ⟨200, [], "1"⟩ (Or.inr (Or.inl rfl))

/-- C4: in byte-exact mode (parking, trips, telemetry) `storeIfChanged`
is idempotent: with no previous snapshot the first successful call
stores the body and reports `fresh = true`; immediately after a call
that stored the body, a second call whose payload is byte-identical
stores nothing, leaves the snapshot list unchanged and reports
`fresh = false`. -/
theorem claim_C4 (snaps : List String) (r r2 : HttpResp) (j tel : Json)
    (h200 : r.status_code = 200) (h200' : r2.status_code = 200)
    (hsame : r2.text = r.text)
    (hj : json_loads r.text = some j)
    (htel : telemetryExtract j = Except.ok tel) :
    get_parking [] r = ([r.text], Except.ok (j, true)) ∧
    get_parking (r.text :: snaps) r2 = (r.text :: snaps, Except.ok (j, false)) ∧
    get_trips [] r = ([r.text], Except.ok (j, true)) ∧
    get_trips (r.text :: snaps) r2 = (r.text :: snaps, Except.ok (j, false)) ∧
    get_telemetry [] r = ([r.text], Except.ok (tel, true)) ∧
    get_telemetry (r.text :: snaps) r2 =
      (r.text :: snaps, Except.ok (tel, false)) := by
  refine ⟨?_, ?_, ?_, ?_, ?_, ?_⟩ <;>
    simp [get_parking, get_trips, get_telemetry, h200, h200', hsame,
          latestSnap, pyTextNe, HttpResp.jsonE, hj, htel, Except.map]

/-- C4 sample response body satisfying the telemetry shape. -/
def telBody : String :=
  "\x7b\"payload\": \x7b\"odometer\": \x7b\"value\": 7\x7d, \"fuelLevel\": 50, \"distanceToEmpty\": \x7b\"value\": 300\x7d, \"batteryLevel\": 80, \"timestamp\": 5, \"chargingStatus\": \"idle\"\x7d\x7d"

/-- C4 sample parsed payload. -/
def telPayloadJson : Json :=
  .obj [("payload",
    .obj [("odometer", .obj [("value", .num 7)]), ("fuelLevel", .num 50),
          ("distanceToEmpty", .obj [("value", .num 300)]),
          ("batteryLevel", .num 80), ("timestamp", .num 5),
          ("chargingStatus", .str "idle")])]

/-- C4 sample extracted telemetry record. -/
def telExtracted : Json :=
  .obj [("odometer", .num 7), ("hv_percentage", .num 50),
        ("hv_range", .num 300), ("ev_percentage", .num 80),
        ("timestamp", .num 5), ("charging_status", .str "idle")]

set_option maxRecDepth 8192 in
/-- C4 witness: first call on an empty category stores, a second
byte-identical call does not, in all three byte-exact operations. -/
theorem claim_C4_witness :
    get_parking [] ⟨200, [], telBody⟩ =
      ([telBody], Except.ok (telPayloadJson, true)) ∧
    get_parking [telBody] ⟨200, [], telBody⟩ =
      ([telBody], Except.ok (telPayloadJson, false)) ∧
    get_trips [] ⟨200, [], telBody⟩ =
      ([telBody], Except.ok (telPayloadJson, true)) ∧
    get_trips [telBody] ⟨200, [], telBody⟩ =
      ([telBody], Except.ok (telPayloadJson, false)) ∧
    get_telemetry [] ⟨200, [], telBody⟩ =
      ([telBody], Except.ok (telExtracted, true)) ∧
    get_telemetry [telBody] ⟨200, [], telBody⟩ =
      ([telBody], Except.ok (telExtracted, false)) :=
  claim_C4 [] ⟨200, [], telBody⟩ ⟨200, [], telBody⟩ telPayloadJson
    telExtracted rfl rfl rfl rfl rfl

/-- Does a `ValueError` component list include the response body? -/
def carriesBody : List ErrPart → Bool
  | [] => false
  | .bodyP _ :: _ => true
  | _ :: rest => carriesBody rest

/-- Does a `ValueError` component list include the status code? -/
def carriesStatus : List ErrPart → Bool
  | [] => false
  | .statusP _ :: _ => true
  | _ :: rest => carriesStatus rest

/-- Does a `ValueError` component list include the response headers? -/
def carriesHeaders : List ErrPart → Bool
  | [] => false
  | .headersP _ :: _ => true
  | _ :: rest => carriesHeaders rest

/-- C9 counterexample: at a concrete 500 response, `get_trip`'s failure
message carries only the status code and headers — the response body is
absent from the error, refuting the claim for the trip-detail fetch. -/
theorem claim_C9_counterexample :
    get_trip (Json.obj [("customerProfile", Json.obj [("uuid", Json.str "U")])])
      [] "t1" ⟨500, [("h", "v")], "BODY"⟩ =
      ([Req.getTripReq "t1"], [],
       Except.error (PyErr.valueError
         [ErrPart.lit "Failed to get data", ErrPart.statusP 500,
          ErrPart.headersP [("h", "v")]])) ∧
    carriesBody
      [ErrPart.lit "Failed to get data", ErrPart.statusP 500,
       ErrPart.headersP [("h", "v")]] = false :=
  ⟨rfl, rfl⟩

/-- C9 amended: every data-retrieval operation fails on a non-success
status with a `ValueError` carrying the status code and the response
headers; all of them except `get_trip` also carry the response body,
while `get_trip`'s message omits the body. -/
theorem claim_C9 (r : HttpResp) (snaps : List String)
    (tc : List (String × String)) (id : String) (ud uuidv tokv : Json)
    (h : r.status_code ≠ 200)
    (htrip : lookupStr tc id = none)
    (hcp : customerUuid ud = Except.ok uuidv)
    (htok : pyGetKey ud "token" = Except.ok tokv) :
    (get_trips snaps r).2 = Except.error (PyErr.valueError
      [ErrPart.lit "Failed to get data, Status: Headers: Body:",
       ErrPart.statusP r.status_code, ErrPart.headersP r.headers,
       ErrPart.bodyP r.text]) ∧
    (get_parking snaps r).2 = Except.error (PyErr.valueError
      [ErrPart.lit "Failed to get data", ErrPart.bodyP r.text,
       ErrPart.statusP r.status_code, ErrPart.headersP r.headers]) ∧
    (get_telemetry snaps r).2 = Except.error (PyErr.valueError
      [ErrPart.lit "Failed to get data", ErrPart.bodyP r.text,
       ErrPart.statusP r.status_code, ErrPart.headersP r.headers]) ∧
    (get_remote_control_status snaps r).2 = Except.error (PyErr.valueError
      [ErrPart.lit "Failed to get data", ErrPart.bodyP r.text,
       ErrPart.statusP r.status_code, ErrPart.headersP r.headers]) ∧
    (get_driving_statistics ud snaps r).2.2 = Except.error (PyErr.valueError
      [ErrPart.lit "Failed to get data", ErrPart.bodyP r.text,
       ErrPart.statusP r.status_code, ErrPart.headersP r.headers]) ∧
    (get_trip ud tc id r).2.2 = Except.error (PyErr.valueError
      [ErrPart.lit "Failed to get data", ErrPart.statusP r.status_code,
       ErrPart.headersP r.headers]) ∧
    carriesStatus [ErrPart.lit "Failed to get data",
      ErrPart.statusP r.status_code, ErrPart.headersP r.headers] = true ∧
    carriesHeaders [ErrPart.lit "Failed to get data",
      ErrPart.statusP r.status_code, ErrPart.headersP r.headers] = true ∧
    carriesBody [ErrPart.lit "Failed to get data",
      ErrPart.statusP r.status_code, ErrPart.headersP r.headers] = false ∧
    carriesBody [ErrPart.lit "Failed to get data", ErrPart.bodyP r.text,
      ErrPart.statusP r.status_code, ErrPart.headersP r.headers] = true ∧
    carriesBody [ErrPart.lit "Failed to get data, Status: Headers: Body:",
      ErrPart.statusP r.status_code, ErrPart.headersP r.headers,
      ErrPart.bodyP r.text] = true := by
  refine ⟨?_, ?_, ?_, ?_, ?_, ?_, rfl, rfl, rfl, rfl, rfl⟩ <;>
    simp [get_trips, get_parking, get_telemetry, get_remote_control_status,
          get_driving_statistics, get_trip, h, htrip, hcp, htok]

/-- C9 witness: sample user data for the statistics and trip-detail
preconditions. -/
def statUd : Json :=
  .obj [("token", .str "T"),
        ("customerProfile", .obj [("uuid", .str "U")])]

/-- C9 witness: at a concrete 500 response all operations fail carrying
status and headers; all but `get_trip` carry the body. -/
theorem claim_C9_witness :
    (get_trips [] ⟨500, [("h", "v")], "B"⟩).2 = Except.error (PyErr.valueError
      [ErrPart.lit "Failed to get data, Status: Headers: Body:",
       ErrPart.statusP 500, ErrPart.headersP [("h", "v")],
       ErrPart.bodyP "B"]) ∧
    (get_parking [] ⟨500, [("h", "v")], "B"⟩).2 = Except.error (PyErr.valueError
      [ErrPart.lit "Failed to get data", ErrPart.bodyP "B",
       ErrPart.statusP 500, ErrPart.headersP [("h", "v")]]) ∧
    (get_telemetry [] ⟨500, [("h", "v")], "B"⟩).2 = Except.error (PyErr.valueError
      [ErrPart.lit "Failed to get data", ErrPart.bodyP "B",
       ErrPart.statusP 500, ErrPart.headersP [("h", "v")]]) ∧
    (get_remote_control_status [] ⟨500, [("h", "v")], "B"⟩).2 =
      Except.error (PyErr.valueError
        [ErrPart.lit "Failed to get data", ErrPart.bodyP "B",
         ErrPart.statusP 500, ErrPart.headersP [("h", "v")]]) ∧
    (get_driving_statistics statUd [] ⟨500, [("h", "v")], "B"⟩).2.2 =
      Except.error (PyErr.valueError
        [ErrPart.lit "Failed to get data", ErrPart.bodyP "B",
         ErrPart.statusP 500, ErrPart.headersP [("h", "v")]]) ∧
    (get_trip statUd [] "t" ⟨500, [("h", "v")], "B"⟩).2.2 =
      Except.error (PyErr.valueError
        [ErrPart.lit "Failed to get data", ErrPart.statusP 500,
         ErrPart.headersP [("h", "v")]]) ∧
    carriesStatus [ErrPart.lit "Failed to get data", ErrPart.statusP 500,
      ErrPart.headersP [("h", "v")]] = true ∧
    carriesHeaders [ErrPart.lit "Failed to get data", ErrPart.statusP 500,
      ErrPart.headersP [("h", "v")]] = true ∧
    carriesBody [ErrPart.lit "Failed to get data", ErrPart.statusP 500,
      ErrPart.headersP [("h", "v")]] = false ∧
    carriesBody [ErrPart.lit "Failed to get data", ErrPart.bodyP "B",
      ErrPart.statusP 500, ErrPart.headersP [("h", "v")]] = true ∧
    carriesBody [ErrPart.lit "Failed to get data, Status: Headers: Body:",
      ErrPart.statusP 500, ErrPart.headersP [("h", "v")],
      ErrPart.bodyP "B"] = true :=
  claim_C9 ⟨500, [("h", "v")], "B"⟩ [] [] "t" statUd (Json.str "U")
    (Json.str "T") (by decide) rfl rfl rfl

/-- A successful but otherwise inert response for environment slots a
scenario never consults. -/
def dummyResp : HttpResp := ⟨200, [], ""⟩

/-- A login environment for scenarios that never reach the network. -/
def dummyEnv : LoginEnv :=
  ⟨dummyResp, dummyResp, dummyResp, dummyResp, dummyResp, dummyResp,
   fun _ => .error .jwtDecodeError⟩

/-- A sample configuration record. -/
def dummyCfg : Config := ⟨"user", "pass", "VIN"⟩

/-- The interactive flow always issues at least its two opening posts. -/
theorem interactiveLogin_trace_ne (cfg : Config) (env : LoginEnv) :
    (interactiveLogin cfg env).1 ≠ [] := by
  unfold interactiveLogin
  repeat' split
  all_goals simp

/-- With a loaded dict record, `login` always issues at least one
request (whichever flow is selected). -/
theorem login_some_obj_trace_ne (fs : List (String × Json)) (cfg : Config)
    (env : LoginEnv) (now : Int) :
    (login (some (Json.obj fs)) cfg env now).1 ≠ [] := by
  unfold login
  cases hrt : dictGet fs "refresh_token" with
  | none =>
      simpa [pyContains, hrt] using interactiveLogin_trace_ne cfg env
  | some rt =>
      simp only [pyContains, hrt]
      unfold refreshLogin
      simp [pyGetKey, hrt]
      split <;> simp

/-- C1 counterexample: with a loaded record whose expiration equals the
current time — so the expiration is *not* in the future — startup still
performs no login or refresh call, refuting the claimed equivalence. -/
theorem claim_C1_counterexample :
    ¬ (((myt_init (some (Json.obj [("expiration", Json.num 5)])) dummyCfg
          dummyEnv 5).1 ≠ []) ↔
       (some (Json.obj [("expiration", Json.num 5)]) = none ∨
        ¬ (5 : Int) < 5)) := by
  have h : myt_init (some (Json.obj [("expiration", Json.num 5)])) dummyCfg
      dummyEnv 5 = ([], Except.ok (Json.obj [("expiration", Json.num 5)])) := rfl
  simp [h]

/-- C1 amended: startup performs a login/refresh network call iff the
loaded record's expiration is strictly before the current time (records
whose expiration equals the current time are also accepted without any
call); with no record or a falsy one, login is always attempted. -/
theorem claim_C1 (fs : List (String × Json)) (t now : Int) (cfg : Config)
    (env : LoginEnv)
    (hne : fs.isEmpty = false)
    (hexp : dictGet fs "expiration" = some (Json.num t)) :
    initNeedsLogin (some (Json.obj fs)) now = Except.ok (decide (now > t)) ∧
    (t ≥ now →
      myt_init (some (Json.obj fs)) cfg env now =
        ([], Except.ok (Json.obj fs))) ∧
    (now > t →
      myt_init (some (Json.obj fs)) cfg env now =
        login (some (Json.obj fs)) cfg env now ∧
      (myt_init (some (Json.obj fs)) cfg env now).1 ≠ []) := by
  have hneed : initNeedsLogin (some (Json.obj fs)) now =
      Except.ok (decide (now > t)) := by
    simp [initNeedsLogin, pyFalsy, hne, pyGetKey, hexp, pendulumParse]
  refine ⟨hneed, ?_, ?_⟩
  · intro hle
    have hnot : ¬ (now > t) := by omega
    simp [myt_init, hneed, hnot]
  · intro hgt
    constructor
    · simp [myt_init, hneed, hgt]
    · simp only [myt_init, hneed, hgt, decide_eq_true_eq, if_pos]
      simpa [hgt] using login_some_obj_trace_ne fs cfg env now

/-- C1 witness: a record expiring at time 10 observed at time 3 needs no
login and `myt_init` issues no request. -/
theorem claim_C1_witness :
    initNeedsLogin (some (Json.obj [("expiration", Json.num 10)])) 3 =
      Except.ok (decide ((3 : Int) > 10)) ∧
    ((10 : Int) ≥ 3 →
      myt_init (some (Json.obj [("expiration", Json.num 10)])) dummyCfg
        dummyEnv 3 =
        ([], Except.ok (Json.obj [("expiration", Json.num 10)]))) ∧
    ((3 : Int) > 10 →
      myt_init (some (Json.obj [("expiration", Json.num 10)])) dummyCfg
        dummyEnv 3 =
        login (some (Json.obj [("expiration", Json.num 10)])) dummyCfg
          dummyEnv 3 ∧
      (myt_init (some (Json.obj [("expiration", Json.num 10)])) dummyCfg
        dummyEnv 3).1 ≠ []) :=
  claim_C1 [("expiration", Json.num 10)] 10 3 dummyCfg dummyEnv rfl rfl

/-- Setting one key leaves the bindings of every other key unchanged. -/
theorem dictGet_dictSet_ne (fs : List (String × Json)) (k k' : String)
    (v : Json) (h : k' ≠ k) :
    dictGet (dictSet fs k v) k' = dictGet fs k' := by
  induction fs with
  | nil => simp [dictGet, dictSet, Ne.symm h]
  | cons p rest ih =>
      obtain ⟨a, b⟩ := p
      by_cases hak : a = k
      · subst hak
        simp [dictGet, dictSet, Ne.symm h]
      · by_cases hak' : a = k'
        · subst hak'
          simp [dictGet, dictSet, hak]
        · simp [dictGet, dictSet, hak, hak', ih]

/-- C6 amended: after a token exchange the session record is replaced
wholesale — the new record is built from the token response alone, so
its refresh-token binding is exactly the response's (when the refresh
response omits a refresh token, the old record's token is dropped with
no error or signal), and old records agreeing on their refresh-token
binding produce identical login outcomes. -/
theorem claim_C6 (env : LoginEnv) (now : Int) (j res : Json)
    (fs fs' : List (String × Json)) (cfg : Config)
    (hfin : finishLogin env now j = Except.ok res)
    (hsame : dictGet fs "refresh_token" = dictGet fs' "refresh_token") :
    pyGetKey res "refresh_token" = pyGetKey j "refresh_token" ∧
    login (some (Json.obj fs)) cfg env now =
      login (some (Json.obj fs')) cfg env now := by
  constructor
  · unfold finishLogin at hfin
    repeat' split at hfin
    all_goals try exact absurd hfin (by simp)
    rename_i j1 hj1 x1 xx tv heqExp
    cases j with
    | obj g =>
        simp only [pySetKey, Except.ok.injEq] at hj1
        subst hj1
        simp only [pySetKey, Except.ok.injEq] at hfin
        subst hfin
        simp only [pyGetKey]
        rw [dictGet_dictSet_ne _ _ _ _ (by decide),
            dictGet_dictSet_ne _ _ _ _ (by decide)]
    | null => simp [pySetKey] at hj1
    | bool b => simp [pySetKey] at hj1
    | num n => simp [pySetKey] at hj1
    | str s => simp [pySetKey] at hj1
    | arr xs => simp [pySetKey] at hj1
  · simp [login, pyContains, refreshLogin, pyGetKey, hsame]

/-- C6: the previously stored session record. -/
def oldRec : Json :=
  .obj [("refresh_token", .str "OLD"), ("expiration", .num 0)]

/-- C6: a refresh-token exchange environment whose token response omits
a new refresh token. -/
def refreshEnv : LoginEnv :=
  ⟨dummyResp, dummyResp, dummyResp, dummyResp, dummyResp,
   ⟨200, [],
    "\x7b\"access_token\": \"A\", \"id_token\": \"I\", \"expires_in\": 3600\x7d"⟩,
   fun _ => .ok (.obj [("uuid", .str "U")])⟩

/-- C6: the record the refresh flow persists. -/
def newRec : Json :=
  .obj [("access_token", .str "A"), ("id_token", .str "I"),
        ("expires_in", .num 3600), ("uuid", .str "U"),
        ("expiration", .num 3600)]

set_option maxRecDepth 8192 in
/-- C6 counterexample: the old record holds refresh token `"OLD"`; the
refresh response omits a new one; the exchange succeeds with no signal
and the persisted record no longer contains any refresh token. -/
theorem claim_C6_counterexample :
    login (some oldRec) dummyCfg refreshEnv 0 =
      ([Req.postTokenRefresh (Json.str "OLD")], Except.ok newRec) ∧
    dictGet [("refresh_token", Json.str "OLD"), ("expiration", Json.num 0)]
      "refresh_token" = some (Json.str "OLD") ∧
    pyGetKey newRec "refresh_token" =
      Except.error (PyErr.keyError "refresh_token") :=
  ⟨rfl, rfl, rfl⟩

set_option maxRecDepth 8192 in
/-- C6 witness: instantiating the amended statement at the concrete
refresh scenario. -/
theorem claim_C6_witness :
    pyGetKey newRec "refresh_token" =
      pyGetKey (Json.obj [("access_token", Json.str "A"),
        ("id_token", Json.str "I"), ("expires_in", Json.num 3600)])
        "refresh_token" ∧
    login (some (Json.obj [("refresh_token", Json.str "OLD"),
        ("expiration", Json.num 0)])) dummyCfg refreshEnv 0 =
      login (some (Json.obj [("expiration", Json.num 99),
        ("refresh_token", Json.str "OLD")])) dummyCfg refreshEnv 0 :=
  claim_C6 refreshEnv 0
    (Json.obj [("access_token", Json.str "A"), ("id_token", Json.str "I"),
      ("expires_in", Json.num 3600)])
    newRec
    [("refresh_token", Json.str "OLD"), ("expiration", Json.num 0)]
    [("expiration", Json.num 99), ("refresh_token", Json.str "OLD")]
    dummyCfg rfl rfl

/-- Is the error the `ValueError` kind (the modelled `LoginError`)? -/
def isLoginValueError : PyErr → Bool
  | .valueError _ => true
  | _ => false

/-- Number of password-submission posts in a request trace. -/
def countPasswordPosts (t : List Req) : Nat :=
  (t.filter (fun q => match q with
    | .postLoginPassword _ => true
    | _ => false)).length

/-- A well-formed username-prompt response body. -/
def userPromptBody : String :=
  "\x7b\"callbacks\": [\x7b\"input\": [\x7b\"value\": \"\"\x7d]\x7d]\x7d"

/-- C7: an environment whose password-challenge response lacks both the
input slot and the diagnostic output slot. -/
def lackingEnv : LoginEnv :=
  ⟨⟨200, [], "INIT"⟩, ⟨200, [], userPromptBody⟩,
   ⟨200, [], "\x7b\"callbacks\": [\x7b\x7d]\x7d"⟩,
   dummyResp, dummyResp, dummyResp, fun _ => .error .jwtDecodeError⟩

set_option maxRecDepth 8192 in
/-- C7 counterexample: a password-challenge response lacking the input
slot (and the diagnostic slot) makes the login fail with a raw
`KeyError`, not the `ValueError` `LoginError` carrying a provider
message — though still without issuing the password post. -/
theorem claim_C7_counterexample :
    (interactiveLogin dummyCfg lackingEnv).2 =
      Except.error (PyErr.keyError "output") ∧
    isLoginValueError (PyErr.keyError "output") = false ∧
    countPasswordPosts (interactiveLogin dummyCfg lackingEnv).1 = 0 :=
  ⟨rfl, rfl, rfl⟩

/-- C7 amended: when the password-challenge response parses, lacks the
expected input slot, and carries the provider's diagnostic output slot,
the interactive login fails immediately with the `ValueError`
`LoginError` carrying that diagnostic, and the password-submission post
is never issued (the trace stops at the username submission). -/
theorem claim_C7 (cfg : Config) (env : LoginEnv) (dataU data2 data3 m : Json)
    (k : String)
    (hu : env.rUser.jsonE = Except.ok dataU)
    (hset : setSlot dataU cfg.username = Except.ok data2)
    (hp : env.rPass.jsonE = Except.ok data3)
    (hslot : setSlot data3 cfg.password = Except.error (PyErr.keyError k))
    (hmsg : outputMsg data3 = Except.ok m) :
    (interactiveLogin cfg env).2 = Except.error (PyErr.valueError
      [ErrPart.lit "Login failed, check your username!", ErrPart.jsonP m]) ∧
    (interactiveLogin cfg env).1 =
      [Req.postLoginStart, Req.postLoginUserPrompt env.rStart.text,
       Req.postLoginUsername (json_dumps data2)] ∧
    countPasswordPosts (interactiveLogin cfg env).1 = 0 := by
  have hflow : interactiveLogin cfg env =
      ([Req.postLoginStart, Req.postLoginUserPrompt env.rStart.text,
        Req.postLoginUsername (json_dumps data2)],
       Except.error (PyErr.valueError
         [ErrPart.lit "Login failed, check your username!",
          ErrPart.jsonP m])) := by
    unfold interactiveLogin
    rw [hu]
    dsimp only []
    rw [hset]
    dsimp only []
    rw [hp]
    dsimp only []
    simp [passwordStep, hslot, hmsg]
  refine ⟨by rw [hflow], by rw [hflow], ?_⟩
  rw [hflow]
  simp [countPasswordPosts]

/-- C7: the password-challenge response with the diagnostic slot but no
input slot (wrong-username shape). -/
def wrongUserEnv : LoginEnv :=
  ⟨⟨200, [], "INIT"⟩, ⟨200, [], userPromptBody⟩,
   ⟨200, [],
    "\x7b\"callbacks\": [\x7b\"output\": [\x7b\"value\": \"Bad user\"\x7d]\x7d]\x7d"⟩,
   dummyResp, dummyResp, dummyResp, fun _ => .error .jwtDecodeError⟩

/-- C7: the username-prompt data after filling in the username. -/
def filledPrompt : Json :=
  .obj [("callbacks",
    .arr [.obj [("input", .arr [.obj [("value", .str "user")]])]])]

set_option maxRecDepth 8192 in
/-- C7 witness: at the wrong-username scenario the flow fails with the
check-your-username error carrying the provider message and no password
post is issued. -/
theorem claim_C7_witness :
    (interactiveLogin dummyCfg wrongUserEnv).2 =
      Except.error (PyErr.valueError
        [ErrPart.lit "Login failed, check your username!",
         ErrPart.jsonP (Json.str "Bad user")]) ∧
    (interactiveLogin dummyCfg wrongUserEnv).1 =
      [Req.postLoginStart, Req.postLoginUserPrompt "INIT",
       Req.postLoginUsername (json_dumps filledPrompt)] ∧
    countPasswordPosts (interactiveLogin dummyCfg wrongUserEnv).1 = 0 :=
  claim_C7 dummyCfg wrongUserEnv
    (Json.obj [("callbacks",
      .arr [.obj [("input", .arr [.obj [("value", .str "")]])]])])
    filledPrompt
    (Json.obj [("callbacks",
      .arr [.obj [("output", .arr [.obj [("value", .str "Bad user")]])]])])
    (Json.str "Bad user") "input" rfl rfl rfl rfl rfl

theorem countFetches_nil (id : String) : countFetches id [] = 0 := rfl

theorem countFetches_cons_ne (id hd : String) (h : hd ≠ id) (t : List Req) :
    countFetches id (Req.getTripReq hd :: t) = countFetches id t := by
  simp [countFetches, isFetchOf, h]

theorem countFetches_cons_eq (id : String) (t : List Req) :
    countFetches id (Req.getTripReq id :: t) = countFetches id t + 1 := by
  simp [countFetches, isFetchOf]

theorem runGetTrips_no_fetch_of_cached (ud : Json) (env : String → HttpResp)
    (id : String) (b : String) :
    ∀ (ids : List String) (cache : List (String × String)),
      lookupStr cache id = some b →
      countFetches id (runGetTrips ud env cache ids) = 0 := by
  intro ids
  induction ids with
  | nil =>
      intro cache h
      rfl
  | cons hd tl ih =>
      intro cache hcache
      cases hl : lookupStr cache hd with
      | some body2 =>
          cases hp : json_loads body2 with
          | some j =>
              have hstep : get_trip ud cache hd (env hd) =
                  ([], cache, Except.ok (j, false)) := by
                simp [get_trip, hl, hp]
              simp only [runGetTrips, hstep, List.nil_append]
              exact ih cache hcache
          | none =>
              have hstep : get_trip ud cache hd (env hd) =
                  ([], cache, Except.error PyErr.jsonDecodeError) := by
                simp [get_trip, hl, hp]
              simp only [runGetTrips, hstep]
              rfl
      | none =>
          have hhd : hd ≠ id := by
            intro he
            subst he
            rw [hcache] at hl
            exact Option.noConfusion hl
          cases hcu : customerUuid ud with
          | error e =>
              have hstep : get_trip ud cache hd (env hd) =
                  ([], cache, Except.error e) := by
                simp [get_trip, hl, hcu]
              simp only [runGetTrips, hstep]
              rfl
          | ok uu =>
              by_cases hst : (env hd).status_code = 200
              · cases hj : (env hd).jsonE with
                | error e =>
                    have hstep : get_trip ud cache hd (env hd) =
                        ([Req.getTripReq hd], (hd, (env hd).text) :: cache,
                         Except.error e) := by
                      simp [get_trip, hl, hcu, hst, hj, Except.map]
                    simp only [runGetTrips, hstep]
                    simp [countFetches_cons_ne id hd hhd, countFetches_nil]
                | ok j =>
                    have hstep : get_trip ud cache hd (env hd) =
                        ([Req.getTripReq hd], (hd, (env hd).text) :: cache,
                         Except.ok (j, true)) := by
                      simp [get_trip, hl, hcu, hst, hj, Except.map]
                    have hrec : lookupStr ((hd, (env hd).text) :: cache) id =
                        some b := by
                      simp [lookupStr, hhd, hcache]
                    simp only [runGetTrips, hstep, List.singleton_append]
                    rw [countFetches_cons_ne id hd hhd]
                    exact ih _ hrec
              · have hstep : get_trip ud cache hd (env hd) =
                    ([Req.getTripReq hd], cache,
                     Except.error (PyErr.valueError
                       [ErrPart.lit "Failed to get data",
                        ErrPart.statusP (env hd).status_code,
                        ErrPart.headersP (env hd).headers])) := by
                  simp [get_trip, hl, hcu, hst]
                simp only [runGetTrips, hstep]
                rw [countFetches_cons_ne id hd hhd]
                rfl

theorem runGetTrips_at_most_one (ud : Json) (env : String → HttpResp)
    (id : String) :
    ∀ (ids : List String) (cache : List (String × String)),
      countFetches id (runGetTrips ud env cache ids) ≤ 1 := by
  intro ids
  induction ids with
  | nil =>
      intro cache
      simp [runGetTrips, countFetches]
  | cons hd tl ih =>
      intro cache
      cases hl : lookupStr cache hd with
      | some body2 =>
          cases hp : json_loads body2 with
          | some j =>
              have hstep : get_trip ud cache hd (env hd) =
                  ([], cache, Except.ok (j, false)) := by
                simp [get_trip, hl, hp]
              simp only [runGetTrips, hstep, List.nil_append]
              exact ih cache
          | none =>
              have hstep : get_trip ud cache hd (env hd) =
                  ([], cache, Except.error PyErr.jsonDecodeError) := by
                simp [get_trip, hl, hp]
              simp only [runGetTrips, hstep]
              simp [countFetches]
      | none =>
          cases hcu : customerUuid ud with
          | error e =>
              have hstep : get_trip ud cache hd (env hd) =
                  ([], cache, Except.error e) := by
                simp [get_trip, hl, hcu]
              simp only [runGetTrips, hstep]
              simp [countFetches]
          | ok uu =>
              by_cases hst : (env hd).status_code = 200
              · cases hj : (env hd).jsonE with
                | error e =>
                    have hstep : get_trip ud cache hd (env hd) =
                        ([Req.getTripReq hd], (hd, (env hd).text) :: cache,
                         Except.error e) := by
                      simp [get_trip, hl, hcu, hst, hj, Except.map]
                    simp only [runGetTrips, hstep]
                    by_cases hhd : hd = id
                    · subst hhd
                      rw [countFetches_cons_eq, countFetches_nil]
                    · rw [countFetches_cons_ne id hd hhd, countFetches_nil]
                      omega
                | ok j =>
                    have hstep : get_trip ud cache hd (env hd) =
                        ([Req.getTripReq hd], (hd, (env hd).text) :: cache,
                         Except.ok (j, true)) := by
                      simp [get_trip, hl, hcu, hst, hj, Except.map]
                    simp only [runGetTrips, hstep, List.singleton_append]
                    by_cases hhd : hd = id
                    · subst hhd
                      rw [countFetches_cons_eq]
                      have h0 := runGetTrips_no_fetch_of_cached ud env hd
                        (env hd).text tl ((hd, (env hd).text) :: cache)
                        (by simp [lookupStr])
                      omega
                    · rw [countFetches_cons_ne id hd hhd]
                      exact ih _
              · have hstep : get_trip ud cache hd (env hd) =
                    ([Req.getTripReq hd], cache,
                     Except.error (PyErr.valueError
                       [ErrPart.lit "Failed to get data",
                        ErrPart.statusP (env hd).status_code,
                        ErrPart.headersP (env hd).headers])) := by
                  simp [get_trip, hl, hcu, hst]
                simp only [runGetTrips, hstep]
                by_cases hhd : hd = id
                · subst hhd
                  rw [countFetches_cons_eq, countFetches_nil]
                · rw [countFetches_cons_ne id hd hhd, countFetches_nil]
                  omega


/-- C3: `get_trip` is content-addressed: a cached trip is returned from
the store (parsed stored body, `fresh = false`) with no fetch and no
cache change; an uncached trip is fetched, its body stored
unconditionally, and returned with `fresh = true`; and across any
sequence of invocations, the fetch for a given identifier is issued at
most once (zero times when the identifier is already cached). -/
theorem claim_C3 (ud : Json) (cache : List (String × String)) (id : String)
    (r : HttpResp) (body : String) (j : Json) (env : String → HttpResp)
    (ids : List String)
    (hhit : lookupStr cache id = some body)
    (hparse : json_loads body = some j) :
    get_trip ud cache id r = ([], cache, Except.ok (j, false)) ∧
    (∀ cache2 uuidv, lookupStr cache2 id = none →
      customerUuid ud = Except.ok uuidv → r.status_code = 200 →
      get_trip ud cache2 id r =
        ([Req.getTripReq id], (id, r.text) :: cache2,
         (r.jsonE).map (fun p => (p, true)))) ∧
    countFetches id (runGetTrips ud env cache ids) = 0 ∧
    (∀ cache3, countFetches id (runGetTrips ud env cache3 ids) ≤ 1) := by
  refine ⟨?_, ?_, ?_, ?_⟩
  · simp [get_trip, hhit, hparse]
  · intro cache2 uuidv h0 hcu h200
    simp [get_trip, h0, hcu, h200]
  · exact runGetTrips_no_fetch_of_cached ud env id body ids cache hhit
  · intro cache3
    exact runGetTrips_at_most_one ud env id ids cache3

/-- C3 witness: with trip `t1` cached, its body is returned unparsed
from the store with no fetch and zero fetches across a three-trip run;
from an empty cache the fetch happens exactly once. -/
theorem claim_C3_witness :
    get_trip statUd [("t1", "1")] "t1" ⟨200, [], "2"⟩ =
      ([], [("t1", "1")], Except.ok (Json.num 1, false)) ∧
    get_trip statUd [] "t1" ⟨200, [], "2"⟩ =
      ([Req.getTripReq "t1"], [("t1", "2")], Except.ok (Json.num 2, true)) ∧
    countFetches "t1" (runGetTrips statUd (fun _ => ⟨200, [], "2"⟩)
      [("t1", "1")] ["t1", "t2", "t1"]) = 0 ∧
    countFetches "t1" (runGetTrips statUd (fun _ => ⟨200, [], "2"⟩)
      [] ["t1", "t2", "t1"]) ≤ 1 := by
  have h := claim_C3 statUd [("t1", "1")] "t1" ⟨200, [], "2"⟩ "1" (Json.num 1)
    (fun _ => ⟨200, [], "2"⟩) ["t1", "t2", "t1"] rfl rfl
  refine ⟨h.1, ?_, h.2.2.1, h.2.2.2 []⟩
  have h2 := h.2.1 [] (Json.str "U") rfl rfl rfl
  have hj : (HttpResp.mk 200 [] "2").jsonE = Except.ok (Json.num 2) := rfl
  rw [hj] at h2
  simpa [Except.map] using h2

theorem canonFields_length (fs : List (String × Json)) :
    (canonFields fs).length = fs.length := by
  induction fs with
  | nil => simp [canonFields]
  | cons p rest ih =>
      obtain ⟨k, v⟩ := p
      simp [canonFields, ih]

theorem mem_canonFields (k : String) (v : Json) (fs : List (String × Json))
    (h : (k, v) ∈ fs) : (k, canon v) ∈ canonFields fs := by
  induction fs with
  | nil => cases h
  | cons p rest ih =>
      obtain ⟨a, b⟩ := p
      rcases List.mem_cons.mp h with h1 | h1
      · obtain ⟨rfl, rfl⟩ := Prod.mk.injEq .. ▸ h1
        simp [canonFields]
      · simp [canonFields, ih h1]

theorem canonFields_mem_inv (p : String × Json) (fs : List (String × Json))
    (h : p ∈ canonFields fs) : ∃ v, (p.1, v) ∈ fs ∧ p.2 = canon v := by
  induction fs with
  | nil => simp [canonFields] at h
  | cons q rest ih =>
      obtain ⟨a, b⟩ := q
      simp only [canonFields, List.mem_cons] at h
      rcases h with h1 | h1
      · exact ⟨b, by simp [h1], by simp [h1]⟩
      · obtain ⟨v, hv, he⟩ := ih h1
        exact ⟨v, List.mem_cons_of_mem _ hv, he⟩

theorem dictGet_of_mem_distinct (gs : List (String × Json)) (k : String)
    (w : Json) (hd : distinctKeys (gs.map Prod.fst) = true)
    (hm : (k, w) ∈ gs) : dictGet gs k = some w := by
  induction gs with
  | nil => cases hm
  | cons q rest ih =>
      obtain ⟨a, b⟩ := q
      simp only [List.map_cons, distinctKeys, Bool.and_eq_true,
                 Bool.not_eq_true', decide_eq_false_iff_not] at hd
      rcases List.mem_cons.mp hm with h1 | h1
      · obtain ⟨rfl, rfl⟩ := Prod.mk.injEq .. ▸ h1
        simp [dictGet]
      · have hak : a ≠ k := by
          intro he
          subst he
          exact hd.1 (List.mem_map_of_mem Prod.fst h1)
        simp [dictGet, hak, ih hd.2 h1]

theorem nodupKeysFields_mem (gs : List (String × Json)) (k : String) (w : Json)
    (hb : nodupKeysFields gs = true) (hm : (k, w) ∈ gs) :
    nodupKeys w = true := by
  induction gs with
  | nil => cases hm
  | cons q rest ih =>
      obtain ⟨a, b⟩ := q
      simp only [nodupKeysFields, Bool.and_eq_true] at hb
      rcases List.mem_cons.mp hm with h1 | h1
      · obtain ⟨rfl, rfl⟩ := Prod.mk.injEq .. ▸ h1
        exact hb.1
      · exact ih hb.2 h1

mutual

theorem pyEq_of_canon : ∀ (a b : Json), canon a = canon b →
    nodupKeys a = true → nodupKeys b = true → pyEq a b = true
  | .null, .null, _, _, _ => by simp [pyEq]
  | .bool _, .bool _, h, _, _ => by
      simp only [canon, Json.bool.injEq] at h
      simp [pyEq, h]
  | .num _, .num _, h, _, _ => by
      simp only [canon, Json.num.injEq] at h
      simp [pyEq, h]
  | .str _, .str _, h, _, _ => by
      simp only [canon, Json.str.injEq] at h
      simp [pyEq, h]
  | .arr xs, .arr ys, h, ha, hb => by
      simp only [canon, Json.arr.injEq] at h
      simp only [nodupKeys] at ha hb
      simp only [pyEq]
      exact pyEqList_of_canonList xs ys h ha hb
  | .obj fs, .obj gs, h, ha, hb => by
      simp only [canon, Json.obj.injEq] at h
      simp only [nodupKeys, Bool.and_eq_true] at ha hb
      have h1 := (List.perm_insertionSort keyLe (canonFields fs)).symm
      rw [h] at h1
      have hperm := h1.trans (List.perm_insertionSort keyLe (canonFields gs))
      have hlen : fs.length = gs.length := by
        have := hperm.length_eq
        simpa [canonFields_length] using this
      have hsub : ∀ k v, (k, v) ∈ fs → ∃ w, (k, w) ∈ gs ∧ canon v = canon w := by
        intro k v hm
        have hmem := hperm.subset (mem_canonFields k v fs hm)
        obtain ⟨w, hw, he⟩ := canonFields_mem_inv (k, canon v) gs hmem
        exact ⟨w, hw, he⟩
      simp only [pyEq, Bool.and_eq_true]
      exact ⟨by simp [hlen], pyEqObjAll_of fs gs hsub ha.2 hb.2 hb.1⟩
  | .null, .bool _, h, _, _ => by simp [canon] at h
  | .null, .num _, h, _, _ => by simp [canon] at h
  | .null, .str _, h, _, _ => by simp [canon] at h
  | .null, .arr _, h, _, _ => by simp [canon] at h
  | .null, .obj _, h, _, _ => by simp [canon] at h
  | .bool _, .null, h, _, _ => by simp [canon] at h
  | .bool _, .num _, h, _, _ => by simp [canon] at h
  | .bool _, .str _, h, _, _ => by simp [canon] at h
  | .bool _, .arr _, h, _, _ => by simp [canon] at h
  | .bool _, .obj _, h, _, _ => by simp [canon] at h
  | .num _, .null, h, _, _ => by simp [canon] at h
  | .num _, .bool _, h, _, _ => by simp [canon] at h
  | .num _, .str _, h, _, _ => by simp [canon] at h
  | .num _, .arr _, h, _, _ => by simp [canon] at h
  | .num _, .obj _, h, _, _ => by simp [canon] at h
  | .str _, .null, h, _, _ => by simp [canon] at h
  | .str _, .bool _, h, _, _ => by simp [canon] at h
  | .str _, .num _, h, _, _ => by simp [canon] at h
  | .str _, .arr _, h, _, _ => by simp [canon] at h
  | .str _, .obj _, h, _, _ => by simp [canon] at h
  | .arr _, .null, h, _, _ => by simp [canon] at h
  | .arr _, .bool _, h, _, _ => by simp [canon] at h
  | .arr _, .num _, h, _, _ => by simp [canon] at h
  | .arr _, .str _, h, _, _ => by simp [canon] at h
  | .arr _, .obj _, h, _, _ => by simp [canon] at h
  | .obj _, .null, h, _, _ => by simp [canon] at h
  | .obj _, .bool _, h, _, _ => by simp [canon] at h
  | .obj _, .num _, h, _, _ => by simp [canon] at h
  | .obj _, .str _, h, _, _ => by simp [canon] at h
  | .obj _, .arr _, h, _, _ => by simp [canon] at h

theorem pyEqList_of_canonList : ∀ (xs ys : List Json),
    canonList xs = canonList ys → nodupKeysList xs = true →
    nodupKeysList ys = true → pyEqList xs ys = true
  | [], [], _, _, _ => by simp [pyEqList]
  | [], _ :: _, h, _, _ => by simp [canonList] at h
  | _ :: _, [], h, _, _ => by simp [canonList] at h
  | x :: xs, y :: ys, h, ha, hb => by
      simp only [canonList, List.cons.injEq] at h
      simp only [nodupKeysList, Bool.and_eq_true] at ha hb
      simp only [pyEqList, Bool.and_eq_true]
      exact ⟨pyEq_of_canon x y h.1 ha.1 hb.1,
             pyEqList_of_canonList xs ys h.2 ha.2 hb.2⟩

theorem pyEqObjAll_of : ∀ (fs gs : List (String × Json)),
    (∀ k v, (k, v) ∈ fs → ∃ w, (k, w) ∈ gs ∧ canon v = canon w) →
    nodupKeysFields fs = true → nodupKeysFields gs = true →
    distinctKeys (gs.map Prod.fst) = true → pyEqObjAll fs gs = true
  | [], _, _, _, _, _ => by simp [pyEqObjAll]
  | (k, v) :: rest, gs, hsub, ha, hb, hd => by
      simp only [nodupKeysFields, Bool.and_eq_true] at ha
      simp only [pyEqObjAll, Bool.and_eq_true]
      constructor
      · obtain ⟨w, hw, hcw⟩ := hsub k v (by simp)
        have hget : dictGet gs k = some w := dictGet_of_mem_distinct gs k w hd hw
        rw [hget]
        exact pyEq_of_canon v w hcw ha.1 (nodupKeysFields_mem gs k w hb hw)
      · exact pyEqObjAll_of rest gs
          (fun k' v' hm => hsub k' v' (List.mem_cons_of_mem _ hm)) ha.2 hb hd

end

theorem keysChainLe_of_sorted (l : List (String × Json))
    (h : List.Sorted keyLe l) : keysChainLe l = true := by
  induction l with
  | nil => rfl
  | cons p rest ih =>
      cases rest with
      | nil => rfl
      | cons q rest2 =>
          rw [List.sorted_cons] at h
          simp only [keysChainLe, Bool.and_eq_true]
          exact ⟨by simpa [keyLe] using h.1 q (by simp), ih h.2⟩

theorem keysSortedFields_forall (l : List (String × Json)) :
    keysSortedFields l = true ↔ ∀ p ∈ l, keysSorted p.2 = true := by
  induction l with
  | nil => simp [keysSortedFields]
  | cons p rest ih =>
      obtain ⟨a, b⟩ := p
      simp [keysSortedFields, Bool.and_eq_true, ih, List.forall_mem_cons]

mutual

theorem keysSorted_canon : ∀ (j : Json), keysSorted (canon j) = true
  | .null => by simp [canon, keysSorted]
  | .bool _ => by simp [canon, keysSorted]
  | .num _ => by simp [canon, keysSorted]
  | .str _ => by simp [canon, keysSorted]
  | .arr xs => by
      simp only [canon, keysSorted]
      exact keysSortedList_canonList xs
  | .obj fs => by
      simp only [canon, keysSorted, Bool.and_eq_true]
      refine ⟨keysChainLe_of_sorted _ (List.sorted_insertionSort keyLe _), ?_⟩
      rw [keysSortedFields_forall]
      intro p hp
      exact (keysSortedFields_forall (canonFields fs)).mp
        (keysSortedFields_canonFields fs) p
        ((List.perm_insertionSort keyLe (canonFields fs)).subset hp)

theorem keysSortedList_canonList : ∀ (xs : List Json),
    keysSortedList (canonList xs) = true
  | [] => by simp [canonList, keysSortedList]
  | x :: xs => by
      simp only [canonList, keysSortedList, Bool.and_eq_true]
      exact ⟨keysSorted_canon x, keysSortedList_canonList xs⟩

theorem keysSortedFields_canonFields : ∀ (fs : List (String × Json)),
    keysSortedFields (canonFields fs) = true
  | [] => by simp [canonFields, keysSortedFields]
  | (k, v) :: fs => by
      simp only [canonFields, keysSortedFields, Bool.and_eq_true]
      exact ⟨keysSorted_canon v, keysSortedFields_canonFields fs⟩

end

/-- C5: in structural mode (remote-control status, driving statistics),
the snapshot comparison is order-insensitive: when the freshly fetched
payload and the latest stored snapshot parse to values equal up to
recursive key order (canonically equal, with duplicate-free keys), the
operation reports unchanged — nothing stored, fresh = false; and every
payload persisted in this mode is written as the serialization of its
recursively key-sorted canonical form. -/
theorem claim_C5 (snaps : List String) (r : HttpResp)
    (data p : Json) (s : String) (ud tokv uuidv : Json)
    (h200 : r.status_code = 200)
    (hparse : r.jsonE = Except.ok data)
    (hlatest : latestSnap snaps = some s)
    (hprev : json_loads s = some p)
    (heq : canon data = canon p)
    (hnd : nodupKeys data = true)
    (hnd2 : nodupKeys p = true)
    (htok : pyGetKey ud "token" = Except.ok tokv)
    (hcp : customerUuid ud = Except.ok uuidv) :
    get_remote_control_status snaps r = (snaps, Except.ok (data, false)) ∧
    get_driving_statistics ud snaps r =
      ([Req.getStatisticsReq], snaps, Except.ok (data, false)) ∧
    (∀ snaps3 r3 d, r3.status_code = 200 → r3.jsonE = Except.ok d →
      loadPreviousStructural snaps3 = Except.ok none →
      get_remote_control_status snaps3 r3 =
        (json_dumps_sorted d :: snaps3, Except.ok (d, true))) ∧
    (∀ d, json_dumps_sorted d = serialize (canon d) ∧
      keysSorted (canon d) = true) := by
  have hpyeq : pyEq data p = true := pyEq_of_canon data p heq hnd hnd2
  have hload : loadPreviousStructural snaps = Except.ok (some p) := by
    simp [loadPreviousStructural, hlatest, hprev]
  refine ⟨?_, ?_, ?_, ?_⟩
  · simp [get_remote_control_status, h200, hparse, hload, pyNeOpt, hpyeq]
  · simp [get_driving_statistics, htok, hcp, h200, hparse, hload, pyNeOpt,
          hpyeq]
  · intro snaps3 r3 d h3 hp3 hl3
    simp [get_remote_control_status, h3, hp3, hl3, pyNeOpt]
  · intro d
    exact ⟨rfl, keysSorted_canon d⟩

/-- C5: the stored canonical snapshot text. -/
def sortedPrev : String := "\x7b\"a\": 1, \"b\": 2\x7d"

/-- C5: the parsed previous snapshot. -/
def prevJson : Json := .obj [("a", .num 1), ("b", .num 2)]

/-- C5: the same object with its keys in the other order. -/
def permuted : Json := .obj [("b", .num 2), ("a", .num 1)]

/-- C5: a response whose body lists the keys in the other order. -/
def permResp : HttpResp := ⟨200, [], "\x7b\"b\": 2, \"a\": 1\x7d"⟩

set_option maxRecDepth 8192 in
/-- C5 witness: key-order-permuted deep-equal payloads compare as
unchanged in both structural-mode operations, and a fresh store writes
the sorted-keys canonical serialization. -/
theorem claim_C5_witness :
    get_remote_control_status [sortedPrev] permResp =
      ([sortedPrev], Except.ok (permuted, false)) ∧
    get_driving_statistics statUd [sortedPrev] permResp =
      ([Req.getStatisticsReq], [sortedPrev], Except.ok (permuted, false)) ∧
    get_remote_control_status [] permResp =
      (json_dumps_sorted permuted :: [], Except.ok (permuted, true)) ∧
    (json_dumps_sorted permuted = serialize (canon permuted) ∧
      keysSorted (canon permuted) = true) := by
  have hc : canon permuted = canon prevJson := by
    simp [permuted, prevJson, canon, canonFields, List.insertionSort,
          List.orderedInsert, keyLe]
    rw [if_neg (by decide), if_pos (by decide)]
  have h1 : nodupKeys permuted = true := by
    simp [permuted, nodupKeys, nodupKeysFields, nodupKeysList,
          distinctKeys]
  have h2 : nodupKeys prevJson = true := by
    simp [prevJson, nodupKeys, nodupKeysFields, nodupKeysList,
          distinctKeys]
  have h := claim_C5 [sortedPrev] permResp permuted prevJson sortedPrev
    statUd (Json.str "T") (Json.str "U") rfl rfl rfl rfl hc h1 h2 rfl rfl
  exact ⟨h.1, h.2.1, h.2.2.1 [] permResp permuted rfl rfl rfl,
         h.2.2.2 permuted⟩

end Tojota
